import Mathlib

/-!
Verification of the Gentoo installer core (gentoo_install.py).

This file gives a shallow embedding of the configuration model, the
command-execution abstraction, the disk planner and the dry-run pipeline
of the installer, and proves the specified properties about them.

Python conventions modelled here:
  * Optional fields (None in Python) are Option values.
  * Python truthiness of an optional string (None and the empty string
    are falsy) is the predicate truthyOpt.
  * sys.exit(1) and uncaught Python exceptions are the Outcome values
    exited and crashed.
  * Side effects are recorded as an explicit trace of Event values;
    purely textual output (print statements) carries no effect and is
    not part of the trace.
-/

namespace GentooInstaller

/-- Python truthiness of an optional string: None and the empty string are falsy. -/
def truthyOpt (o : Option String) : Bool :=
  match o with
  | none => false
  | some s => s != ""

/-- The installer configuration record (dataclass GentooInstallConfig),
with the field defaults of the source. -/
structure GentooInstallConfig where
  schema_version : Int := 1
  script : String := "guided"
  language : String := "en_US"
  stage3_source : Option String := none
  makeopts_jobs : Option Int := none
  features_parallel_fetch : Bool := true
  emerge_keep_going : Bool := false
  target_disk : Option String := none
  disk_mode : String := "auto"
  root_partition : Option String := none
  boot_partition : Option String := none
  swap_partition : Option String := none
  format_partitions : List (String × String) := []
  root_fs : String := "ext4"
  use_uefi : Option Bool := none
  desktop_profile : Option String := none
  hostname : Option String := none
  username : Option String := none
  root_password : Option String := none
  user_password : Option String := none
  user_is_sudoer : Bool := true
  bootloader : String := "systemd-boot"
  kernel : String := "dist-kernel"
  network_mode : String := "copy_iso"
deriving Repr, DecidableEq

/-- GentooInstallConfig.is_complete: the completeness predicate gating the
installation.  Manual disk mode requires root_partition, any other mode
requires target_disk; the remaining required fields must be truthy and
use_uefi must be explicitly set (not None). -/
def is_complete (cfg : GentooInstallConfig) : Bool :=
  let disk_ok :=
    if cfg.disk_mode = "manual" then truthyOpt cfg.root_partition
    else truthyOpt cfg.target_disk
  (cfg.language != "") && disk_ok && (cfg.root_fs != "") &&
    cfg.use_uefi.isSome && truthyOpt cfg.desktop_profile &&
    truthyOpt cfg.hostname && truthyOpt cfg.username &&
    truthyOpt cfg.root_password && truthyOpt cfg.user_password &&
    (cfg.bootloader != "") && (cfg.kernel != "") && (cfg.network_mode != "")

/-- Modelled from the spec wording of claim C1: the required scalar fields,
every one set (non-empty), with use_uefi explicitly set.  Used only to
compare the source predicate is_complete against the claim text. -/
def specRequiredScalars (cfg : GentooInstallConfig) : Prop :=
  cfg.language ≠ "" ∧ cfg.root_fs ≠ "" ∧ cfg.use_uefi.isSome = true ∧
  truthyOpt cfg.desktop_profile = true ∧ truthyOpt cfg.hostname = true ∧
  truthyOpt cfg.username = true ∧ truthyOpt cfg.root_password = true ∧
  truthyOpt cfg.user_password = true ∧ cfg.bootloader ≠ "" ∧
  cfg.kernel ≠ "" ∧ cfg.network_mode ≠ ""

/-- str.startswith, computed on the character list so that concrete
instances evaluate by kernel reduction. -/
def strStartsWith (s pre : String) : Bool :=
  pre.data.isPrefixOf s.data

/-- Python string slicing s[n:], computed on the character list. -/
def strDrop (s : String) (n : Nat) : String :=
  ⟨s.data.drop n⟩

/-- part_name: full partition path for a disk and a partition number.
NVMe and MMC block devices take a p separator before the number. -/
def part_name (disk : String) (number : Nat) : String :=
  if strStartsWith disk "/dev/nvme" || strStartsWith disk "/dev/mmcblk" then
    disk ++ "p" ++ toString number
  else
    disk ++ toString number

/-- The canonical install root GENTOO_ROOT. -/
def GENTOO_ROOT : String := "/mnt/gentoo"

/-- An observable side effect of the installer.
  * cmdLog: the audit line of runCmd recording an argument vector (emitted
    in both dry-run and live mode).
  * procRun: an external process actually executed by runCmd (live only).
  * procCapture: an external process executed with captured output by
    run_cmd_capture (executed in both modes, never logged).
  * dirCreate: a directory created via os.makedirs.
  * redactedLog: the fixed redacted audit line of the password setter. -/
inductive Event where
  | cmdLog (argv : List String) (dry : Bool)
  | procRun (argv : List String)
  | procCapture (argv : List String)
  | dirCreate (path : String)
  | redactedLog (dry : Bool)
deriving Repr, DecidableEq

/-- How a call ends: a normal return, a sys.exit(1), or an uncaught
Python exception (for instance part_name applied to None). -/
inductive Outcome where
  | normal
  | exited
  | crashed
deriving Repr, DecidableEq

/-- The external world the installer consults: interactive confirmation
answers, the GENTOO_STAGE3_TARBALL environment variable, which paths
exist on the live system, and the introspection tool outputs. -/
structure Env where
  confirmWipe : Bool := false
  confirmFormat : Bool := false
  stage3Env : Option String := none
  existingPaths : List String := []
deriving Repr

/-- run_cmd: log the argument vector as an audit line; in live mode also
execute it as an external process. -/
def runCmd (argv : List String) (dry : Bool) : List Event :=
  [.cmdLog argv dry] ++ (if dry then [] else [.procRun argv])

/-- run_in_chroot: run_cmd with the argv prefixed by the chroot invocation. -/
def runInChroot (cmd : List String) (dry : Bool) (root : String := GENTOO_ROOT) :
    List Event :=
  runCmd (["chroot", root] ++ cmd) dry

/-- The mkfs commands issued for the format_partitions map in manual mode:
ext4 and vfat are supported, any other requested filesystem is skipped. -/
def mkfsEvents (fps : List (String × String)) (dry : Bool) : List Event :=
  (fps.map (fun pf =>
    if pf.2 = "ext4" then runCmd ["mkfs.ext4", pf.1] dry
    else if pf.2 = "vfat" then runCmd ["mkfs.vfat", "-F32", pf.1] dry
    else [])).flatten

/-- The auto-mode UEFI plan: GPT label, EFI system partition of the first
513 MiB, ext4 root over the remainder, format both, mount root then boot. -/
def uefiPlanEvents (d : String) (dry : Bool) : List Event :=
  runCmd ["parted", d, "--script", "mklabel", "gpt"] dry ++
  runCmd ["parted", d, "--script", "mkpart", "ESP", "fat32", "1MiB", "513MiB"] dry ++
  runCmd ["parted", d, "--script", "set", "1", "boot", "on"] dry ++
  runCmd ["parted", d, "--script", "mkpart", "primary", "ext4", "513MiB", "100%"] dry ++
  runCmd ["mkfs.vfat", "-F32", part_name d 1] dry ++
  runCmd ["mkfs.ext4", part_name d 2] dry ++
  runCmd ["mkdir", "-p", GENTOO_ROOT] dry ++
  runCmd ["mount", part_name d 2, GENTOO_ROOT] dry ++
  runCmd ["mkdir", "-p", GENTOO_ROOT ++ "/boot"] dry ++
  runCmd ["mount", part_name d 1, GENTOO_ROOT ++ "/boot"] dry

/-- The auto-mode BIOS plan: MBR label, a single ext4 partition over the
whole disk, format it, mount it at the canonical install root. -/
def biosPlanEvents (d : String) (dry : Bool) : List Event :=
  runCmd ["parted", d, "--script", "mklabel", "msdos"] dry ++
  runCmd ["parted", d, "--script", "mkpart", "primary", "ext4", "1MiB", "100%"] dry ++
  runCmd ["mkfs.ext4", part_name d 1] dry ++
  runCmd ["mkdir", "-p", GENTOO_ROOT] dry ++
  runCmd ["mount", part_name d 1, GENTOO_ROOT] dry

/-- prepare_disks: partition, format and mount the target disk, or reuse
existing partitions.  Manual mode: a missing (falsy) root_partition is
fatal (sys.exit 1) before any command; marked partitions are formatted
only after a separate confirmation, declining skips every mkfs; the root
partition and, when set, the boot partition are then mounted.  Auto mode:
declining the erase confirmation skips disk preparation and returns
normally; otherwise the UEFI or BIOS plan runs.  With no target disk set,
the accepted auto path crashes inside part_name (None has no startswith)
before any command is issued.  Warnings and listings are print-only and
carry no event. -/
def prepare_disks (cfg : GentooInstallConfig) (env : Env) (dry : Bool) :
    List Event × Outcome :=
  if cfg.disk_mode = "manual" then
    if truthyOpt cfg.root_partition = false then ([], .exited)
    else
      let fmtEvents :=
        if cfg.format_partitions.isEmpty then []
        else if env.confirmFormat then mkfsEvents cfg.format_partitions dry
        else []
      let root := cfg.root_partition.getD ""
      let mountEvents :=
        runCmd ["mkdir", "-p", GENTOO_ROOT] dry ++
        runCmd ["mount", root, GENTOO_ROOT] dry ++
        (if truthyOpt cfg.boot_partition then
          runCmd ["mkdir", "-p", GENTOO_ROOT ++ "/boot"] dry ++
          runCmd ["mount", cfg.boot_partition.getD "", GENTOO_ROOT ++ "/boot"] dry
        else [])
      (fmtEvents ++ mountEvents, .normal)
  else
    if env.confirmWipe = false then ([], .normal)
    else
      match cfg.target_disk with
      | none => ([], .crashed)
      | some d =>
        (if cfg.use_uefi = some true then uefiPlanEvents d dry
         else biosPlanEvents d dry, .normal)

/-- The argument vectors of the audit lines of a trace: the ordered
command list that runCmd records. -/
def cmdArgvs (evs : List Event) : List (List String) :=
  evs.filterMap (fun e =>
    match e with
    | .cmdLog a _ => some a
    | _ => none)

/-- An argument vector whose fourth word is mkpart: a parted command that
creates a partition. -/
def isMkpartCmd (a : List String) : Bool :=
  a.getD 3 "" == "mkpart"

/-- The observable result of a _set_password call: the audit lines it
logs and the external processes it starts, each process with its
argument vector and the text fed to its standard input channel. -/
structure PasswordCall where
  auditLines : List String
  procs : List (List String × Option String)
deriving Repr, DecidableEq

/-- _set_password: set a user password inside the chroot via chpasswd.
A falsy (empty) password returns immediately with no audit line and no
process.  Otherwise the audit line records the fixed placeholder
chpasswd (stdin redacted) instead of the invocation payload, and in live
mode the secret reaches chpasswd only through standard input, with a
constant argument vector. -/
def set_password (username password : String) (dry : Bool) : PasswordCall :=
  if password = "" then ⟨[], []⟩
  else
    let printable := "chpasswd (stdin redacted)"
    let audit := "[CMD]" ++ (if dry then " (dry-run)" else "") ++ ": " ++ printable
    if dry then ⟨[audit], []⟩
    else
      ⟨[audit],
       [(["chroot", GENTOO_ROOT, "chpasswd"],
         some (username ++ ":" ++ password ++ "\n"))]⟩

/-- One row of the findmnt -R -no SOURCE,TARGET,FSTYPE,UUID output used
by generate_fstab, already split into its four fields. -/
structure FindmntRow where
  source : String
  target : String
  fstype : String
  uuid : String
deriving Repr, DecidableEq

/-- The fstab entry derived from one findmnt row: rows with an empty
UUID or filesystem type are skipped, as are rows whose target does not
start with the mounted root; the root mountpoint gets pass number 1 and
every other mountpoint gets pass number 2. -/
def fstabMountLine (root : String) (r : FindmntRow) : Option String :=
  if r.uuid = "" ∨ r.fstype = "" then none
  else if strStartsWith r.target root = false then none
  else
    let rel := strDrop r.target root.length
    let mountpoint := if rel = "" then "/" else rel
    let passno := if mountpoint = "/" then "1" else "2"
    some ("UUID=" ++ r.uuid ++ " " ++ mountpoint ++ " " ++ r.fstype ++
      " defaults 0 " ++ passno)

/-- The full fstab line list generated by generate_fstab: the entries of
the findmnt rows mounted under the root, followed by a swap entry with
mountpoint none and pass number 0 when a swap partition is configured and
its blkid UUID lookup returns a non-empty value (a None lookup models a
failed blkid call, which is caught and skipped). -/
def fstabLines (root : String) (rows : List FindmntRow) (swap : Option String)
    (blkidUUID : Option String) : List String :=
  rows.filterMap (fstabMountLine root) ++
  (if truthyOpt swap then
    match blkidUUID with
    | some u => if u != "" then ["UUID=" ++ u ++ " none swap sw 0 0"] else []
    | none => []
  else [])

/-- A JSON-serializable Python value as it appears in the config dict:
a string, an integer, a boolean, None, or the string-to-string map of
format_partitions.  Values are typed per the dataclass annotations. -/
inductive JValue where
  | jstr (s : String)
  | jint (n : Int)
  | jbool (b : Bool)
  | jnull
  | jsmap (m : List (String × String))
deriving Repr, DecidableEq

/-- Encoding of an optional string field: None becomes JSON null. -/
def jOptStr : Option String → JValue
  | none => .jnull
  | some s => .jstr s

/-- Encoding of an optional integer field: None becomes JSON null. -/
def jOptInt : Option Int → JValue
  | none => .jnull
  | some n => .jint n

/-- Encoding of an optional boolean field: None becomes JSON null. -/
def jOptBool : Option Bool → JValue
  | none => .jnull
  | some b => .jbool b

/-- dataclasses.asdict: the full field dictionary of a config, one entry
per field in declaration order. -/
def asdict (cfg : GentooInstallConfig) : List (String × JValue) :=
  [("schema_version", .jint cfg.schema_version),
   ("script", .jstr cfg.script),
   ("language", .jstr cfg.language),
   ("stage3_source", jOptStr cfg.stage3_source),
   ("makeopts_jobs", jOptInt cfg.makeopts_jobs),
   ("features_parallel_fetch", .jbool cfg.features_parallel_fetch),
   ("emerge_keep_going", .jbool cfg.emerge_keep_going),
   ("target_disk", jOptStr cfg.target_disk),
   ("disk_mode", .jstr cfg.disk_mode),
   ("root_partition", jOptStr cfg.root_partition),
   ("boot_partition", jOptStr cfg.boot_partition),
   ("swap_partition", jOptStr cfg.swap_partition),
   ("format_partitions", .jsmap cfg.format_partitions),
   ("root_fs", .jstr cfg.root_fs),
   ("use_uefi", jOptBool cfg.use_uefi),
   ("desktop_profile", jOptStr cfg.desktop_profile),
   ("hostname", jOptStr cfg.hostname),
   ("username", jOptStr cfg.username),
   ("root_password", jOptStr cfg.root_password),
   ("user_password", jOptStr cfg.user_password),
   ("user_is_sudoer", .jbool cfg.user_is_sudoer),
   ("bootloader", .jstr cfg.bootloader),
   ("kernel", .jstr cfg.kernel),
   ("network_mode", .jstr cfg.network_mode)]

/-- dict.pop: remove the entry with the given key, keeping the order of
the remaining entries. -/
def dictPop (k : String) (d : List (String × JValue)) : List (String × JValue) :=
  d.filter (fun kv => kv.1 != k)

/-- config_to_dict: the JSON-serializable dictionary of a config, with
the two sensitive password fields stripped. -/
def config_to_dict (cfg : GentooInstallConfig) : List (String × JValue) :=
  dictPop "user_password" (dictPop "root_password" (asdict cfg))

/-- The field names of the GentooInstallConfig dataclass, used by
config_from_dict to drop unknown keys. -/
def allowedKeys : List String :=
  ["schema_version", "script", "language", "stage3_source", "makeopts_jobs",
   "features_parallel_fetch", "emerge_keep_going", "target_disk", "disk_mode",
   "root_partition", "boot_partition", "swap_partition", "format_partitions",
   "root_fs", "use_uefi", "desktop_profile", "hostname", "username",
   "root_password", "user_password", "user_is_sudoer", "bootloader",
   "kernel", "network_mode"]

/-- Decode a looked-up string field; an absent key keeps the dataclass
default. -/
def decStr (v : Option JValue) (dflt : String) : String :=
  match v with
  | some (.jstr s) => s
  | _ => dflt

/-- Decode a looked-up integer field; an absent key keeps the default. -/
def decInt (v : Option JValue) (dflt : Int) : Int :=
  match v with
  | some (.jint n) => n
  | _ => dflt

/-- Decode a looked-up boolean field; an absent key keeps the default. -/
def decBool (v : Option JValue) (dflt : Bool) : Bool :=
  match v with
  | some (.jbool b) => b
  | _ => dflt

/-- Decode a looked-up optional string field; a JSON null stored under
the key yields None, an absent key keeps the default. -/
def decOptStr (v : Option JValue) (dflt : Option String) : Option String :=
  match v with
  | some (.jstr s) => some s
  | some .jnull => none
  | _ => dflt

/-- Decode a looked-up optional integer field. -/
def decOptInt (v : Option JValue) (dflt : Option Int) : Option Int :=
  match v with
  | some (.jint n) => some n
  | some .jnull => none
  | _ => dflt

/-- Decode a looked-up optional boolean field. -/
def decOptBool (v : Option JValue) (dflt : Option Bool) : Option Bool :=
  match v with
  | some (.jbool b) => some b
  | some .jnull => none
  | _ => dflt

/-- Decode a looked-up format_partitions map. -/
def decSMap (v : Option JValue) (dflt : List (String × String)) :
    List (String × String) :=
  match v with
  | some (.jsmap m) => m
  | _ => dflt

/-- config_from_dict: build a config from a dictionary, first dropping
every key that is not a dataclass field (forward compatibility); fields
absent from the dictionary keep their dataclass defaults.  It never
fails: it is a total function of the dictionary. -/
def config_from_dict (d : List (String × JValue)) : GentooInstallConfig :=
  let fd := d.filter (fun kv => allowedKeys.contains kv.1)
  { schema_version := decInt (fd.lookup "schema_version") 1,
    script := decStr (fd.lookup "script") "guided",
    language := decStr (fd.lookup "language") "en_US",
    stage3_source := decOptStr (fd.lookup "stage3_source") none,
    makeopts_jobs := decOptInt (fd.lookup "makeopts_jobs") none,
    features_parallel_fetch := decBool (fd.lookup "features_parallel_fetch") true,
    emerge_keep_going := decBool (fd.lookup "emerge_keep_going") false,
    target_disk := decOptStr (fd.lookup "target_disk") none,
    disk_mode := decStr (fd.lookup "disk_mode") "auto",
    root_partition := decOptStr (fd.lookup "root_partition") none,
    boot_partition := decOptStr (fd.lookup "boot_partition") none,
    swap_partition := decOptStr (fd.lookup "swap_partition") none,
    format_partitions := decSMap (fd.lookup "format_partitions") [],
    root_fs := decStr (fd.lookup "root_fs") "ext4",
    use_uefi := decOptBool (fd.lookup "use_uefi") none,
    desktop_profile := decOptStr (fd.lookup "desktop_profile") none,
    hostname := decOptStr (fd.lookup "hostname") none,
    username := decOptStr (fd.lookup "username") none,
    root_password := decOptStr (fd.lookup "root_password") none,
    user_password := decOptStr (fd.lookup "user_password") none,
    user_is_sudoer := decBool (fd.lookup "user_is_sudoer") true,
    bootloader := decStr (fd.lookup "bootloader") "systemd-boot",
    kernel := decStr (fd.lookup "kernel") "dist-kernel",
    network_mode := decStr (fd.lookup "network_mode") "copy_iso" }

/-- Split a character list on a separator character, like str.split. -/
def splitChars (sep : Char) : List Char → List (List Char)
  | [] => [[]]
  | c :: rest =>
    let r := splitChars sep rest
    if c = sep then [] :: r
    else
      match r with
      | [] => [[c]]
      | g :: gs => (c :: g) :: gs

/-- Split a slash-separated path into its components. -/
def splitPath (p : String) : List String :=
  (splitChars (Char.ofNat 47) p.data).map (fun cs => String.mk cs)

/-- os.path.basename for the slash-separated paths used here: the part
after the last slash. -/
def basename (p : String) : String :=
  (splitPath p).getLastD ""

/-- The download destination os.path.join of /tmp and the basename of the
source URL, with the fallback name for a URL ending in a slash. -/
def destPath (source : String) : String :=
  let b := basename source
  "/tmp/" ++ (if b = "" then "gentoo-stage3.tar.xz" else b)

/-- Whether a stage3 source is a network locator. -/
def isUrl (s : String) : Bool :=
  strStartsWith s "http://" || strStartsWith s "https://"

/-- A Python or of two optional strings: an unset or empty option falls
through to the next. -/
def nonEmptyOpt (o : Option String) : Option String :=
  match o with
  | some s => if s = "" then none else some s
  | none => none

/-- The stage3 source resolution of install_stage3: the config value if
truthy, else the GENTOO_STAGE3_TARBALL environment variable if truthy. -/
def resolveSource (cfg : GentooInstallConfig) (env : Env) : Option String :=
  match nonEmptyOpt cfg.stage3_source with
  | some s => some s
  | none => nonEmptyOpt env.stage3Env

/-- The directories os.makedirs(p) brings into existence: every ancestor
of p down to p itself. -/
def ancestorPaths (p : String) : List String :=
  let parts := (splitPath p).filter (fun s => s != "")
  (List.range parts.length).map (fun i =>
    "/" ++ String.intercalate "/" (parts.take (i + 1)))

/-- The overlay of created directories after an os.makedirs call. -/
def makedirs (p : String) (created : List String) : List String :=
  created ++ ancestorPaths p

/-- os.path.exists against the live filesystem plus the directories the
run has created so far. -/
def pathExists (env : Env) (created : List String) (p : String) : Bool :=
  decide (p ∈ env.existingPaths) || decide (p ∈ created)

/-- The result of one pipeline stage: its event trace, the directory
overlay after it, and how it ended. -/
structure StageOut where
  events : List Event
  created : List String
  outcome : Outcome
deriving Repr

/-- The dry-run events of generate_fstab: the unconditional makedirs of
the target etc directory and the findmnt introspection process, plus the
blkid lookup process when a swap partition is configured; the fstab
content is printed but not written in dry-run mode. -/
def gfEvents (cfg : GentooInstallConfig) : List Event :=
  [.dirCreate (GENTOO_ROOT ++ "/etc"),
   .procCapture ["findmnt", "-R", "-no", "SOURCE,TARGET,FSTYPE,UUID", GENTOO_ROOT]] ++
  (if truthyOpt cfg.swap_partition then
    [.procCapture ["blkid", "-s", "UUID", "-o", "value", cfg.swap_partition.getD ""]]
  else [])

/-- The dry-run behaviour of install_stage3: the unconditional makedirs
of the install root, source resolution (a missing source warns and
returns), the wget audit line for a URL source, the existence check of
the tarball (missing is fatal, sys.exit 1), the tar audit line, and the
generate_fstab call. -/
def installStage3Dry (cfg : GentooInstallConfig) (env : Env)
    (created : List String) : StageOut :=
  let created1 := makedirs GENTOO_ROOT created
  let ev0 : List Event := [.dirCreate GENTOO_ROOT]
  match resolveSource cfg env with
  | none => ⟨ev0, created1, .normal⟩
  | some source =>
    let wget := isUrl source
    let tarball := if wget then destPath source else source
    let evW : List Event :=
      if wget then runCmd ["wget", "-O", destPath source, source] true else []
    if pathExists env created1 tarball then
      ⟨ev0 ++ evW ++
        runCmd ["tar", "xpf", tarball, "-C", GENTOO_ROOT, "--xattrs-include=*",
          "--numeric-owner"] true ++ gfEvents cfg,
       makedirs (GENTOO_ROOT ++ "/etc") created1, .normal⟩
    else ⟨ev0 ++ evW, created1, .exited⟩

/-- The bind mounts of setup_chroot_mounts, in handbook order. -/
def setupChrootMountsEvents (dry : Bool) : List Event :=
  runCmd ["mount", "--types", "proc", "/proc", GENTOO_ROOT ++ "/proc"] dry ++
  runCmd ["mount", "--rbind", "/sys", GENTOO_ROOT ++ "/sys"] dry ++
  runCmd ["mount", "--make-rslave", GENTOO_ROOT ++ "/sys"] dry ++
  runCmd ["mount", "--rbind", "/dev", GENTOO_ROOT ++ "/dev"] dry ++
  runCmd ["mount", "--make-rslave", GENTOO_ROOT ++ "/dev"] dry ++
  runCmd ["mount", "--rbind", "/run", GENTOO_ROOT ++ "/run"] dry ++
  runCmd ["mount", "--make-rslave", GENTOO_ROOT ++ "/run"] dry

/-- The commands of install_kernel: the firmware install followed by the
kernel commands of the configured mode; an unknown mode warns and skips. -/
def installKernelEvents (cfg : GentooInstallConfig) (dry : Bool) : List Event :=
  runInChroot ["emerge", "--quiet-build=n", "sys-kernel/linux-firmware"] dry ++
  (if cfg.kernel = "dist-kernel" then
    runInChroot ["emerge", "--quiet-build=n", "sys-kernel/gentoo-kernel-bin"] dry
  else if cfg.kernel = "genkernel" then
    runInChroot ["emerge", "sys-kernel/gentoo-sources", "sys-kernel/genkernel"] dry ++
    runInChroot ["genkernel", "all"] dry
  else if cfg.kernel = "manual" then
    runInChroot ["emerge", "sys-kernel/gentoo-sources"] dry
  else [])

/-- The dry-run events of configure_base_system: the chroot bind mounts,
the chrooted locale, timezone, sync and cpu-flag detection commands, the
unconditional mirrorselect capture process, and the kernel installation.
Every file write of this stage is guarded by the dry-run flag and absent
here; file-existence checks of this stage only affect printed text. -/
def configureBaseSystemDryEvents (cfg : GentooInstallConfig) : List Event :=
  setupChrootMountsEvents true ++
  runInChroot ["locale-gen"] true ++
  runInChroot ["emerge", "--config", "sys-libs/timezone-data"] true ++
  [.procCapture ["mirrorselect", "-D", "-s4", "-o"]] ++
  runInChroot ["emerge", "--sync"] true ++
  runInChroot ["emerge", "--noreplace", "app-portage/cpuid2cpuflags"] true ++
  installKernelEvents cfg true

/-- The dry-run behaviour of install_bootloader: systemd-boot requires
the UEFI flag (else skip with a warning); grub is installed and then
configured against EFI or, without UEFI, against the raw target disk,
where an unset target disk crashes run_cmd before its audit line; other
bootloader choices skip with a warning. -/
def installBootloaderDry (cfg : GentooInstallConfig) : List Event × Outcome :=
  if cfg.bootloader = "systemd-boot" then
    if cfg.use_uefi = some true then
      (runInChroot ["bootctl", "--path=/boot", "install"] true, .normal)
    else ([], .normal)
  else if cfg.bootloader = "grub" then
    let e1 := runInChroot ["emerge", "sys-boot/grub"] true
    if cfg.use_uefi = some true then
      (e1 ++
       runInChroot ["grub-install", "--target=x86_64-efi", "--efi-directory=/boot",
         "--bootloader-id=Gentoo"] true ++
       runInChroot ["grub-mkconfig", "-o", "/boot/grub/grub.cfg"] true, .normal)
    else
      match cfg.target_disk with
      | none => (e1, .crashed)
      | some d =>
        (e1 ++ runInChroot ["grub-install", d] true ++
         runInChroot ["grub-mkconfig", "-o", "/boot/grub/grub.cfg"] true, .normal)
  else ([], .normal)

/-- A desktop profile of the fixed registry. -/
structure DesktopProfile where
  name : String
  description : String
  packages : List String
  services : List String
deriving Repr, DecidableEq

/-- The fixed desktop profile registry DESKTOP_PROFILES. -/
def DESKTOP_PROFILES : List (String × DesktopProfile) :=
  [("none", ⟨"none", "No desktop environment (console-only system)", [], []⟩),
   ("gnome", ⟨"gnome", "GNOME desktop environment", ["gnome-base/gnome"], ["gdm"]⟩),
   ("plasma", ⟨"plasma", "KDE Plasma desktop environment",
     ["kde-plasma/plasma-meta"], ["sddm"]⟩),
   ("xfce", ⟨"xfce", "Xfce desktop environment",
     ["xfce-base/xfce4-meta"], ["lightdm"]⟩)]

/-- The dry-run events of install_desktop_environment: an unknown or
unset profile key skips, the none profile does nothing, otherwise the
profile packages are installed and its services enabled in the chroot. -/
def installDesktopDryEvents (cfg : GentooInstallConfig) : List Event :=
  match cfg.desktop_profile with
  | none => []
  | some key =>
    match DESKTOP_PROFILES.lookup key with
    | none => []
    | some profile =>
      if profile.name = "none" then []
      else
        (if profile.packages.isEmpty then []
         else runInChroot (["emerge", "--quiet-build=n"] ++ profile.packages) true) ++
        (profile.services.map
          (fun svc => runInChroot ["systemctl", "enable", svc] true)).flatten

/-- The dry-run events of finalize_install: the redacted password audit
lines, user creation, the sudo package (the sudoers file write is guarded
by the dry-run flag), network services and time synchronization. -/
def finalizeDryEvents (cfg : GentooInstallConfig) : List Event :=
  (if truthyOpt cfg.root_password then [.redactedLog true] else []) ++
  (if truthyOpt cfg.username then
    runInChroot ["useradd", "-m", "-G", "wheel,audio,video", "-s", "/bin/bash",
      cfg.username.getD ""] true ++
    (if truthyOpt cfg.user_password then [.redactedLog true] else [])
  else []) ++
  (if cfg.user_is_sudoer then
    runInChroot ["emerge", "--noreplace", "sudo"] true
  else []) ++
  (if cfg.network_mode = "nm_default" || cfg.network_mode = "nm_iwd" then
    runInChroot (["emerge", "--quiet-build=n", "net-misc/networkmanager"] ++
      (if cfg.network_mode = "nm_iwd" then ["net-wireless/iwd"] else [])) true ++
    runInChroot ["systemctl", "enable", "NetworkManager"] true ++
    (if cfg.network_mode = "nm_iwd" then
      runInChroot ["systemctl", "enable", "iwd"] true
    else [])
  else []) ++
  runInChroot ["systemctl", "enable", "systemd-timesyncd"] true

/-- The dry-run events and outcome of the pipeline stages after stage3:
configure_base_system, install_bootloader (which can crash on a grub BIOS
install with no target disk, stopping the pipeline), then the desktop and
finalize stages.  None of these stages reads or extends the directory
overlay in dry-run mode. -/
def restDry (cfg : GentooInstallConfig) : List Event × Outcome :=
  let c := configureBaseSystemDryEvents cfg
  let b := installBootloaderDry cfg
  match b.2 with
  | .normal =>
    (c ++ b.1 ++ installDesktopDryEvents cfg ++ finalizeDryEvents cfg, .normal)
  | o => (c ++ b.1, o)

/-- run_install in dry-run mode: mount_target (prepare_disks), then
install_stage3 (which calls generate_fstab), then the remaining stages;
a sys.exit or crash stops the pipeline at that point.  The created
argument is the directory overlay the run starts from: the first run of
a fresh system starts from the empty overlay, a second run starts from
the overlay the first run left behind. -/
def runInstallDry (cfg : GentooInstallConfig) (env : Env)
    (created : List String) : StageOut :=
  let p := prepare_disks cfg env true
  match p.2 with
  | .normal =>
    let s := installStage3Dry cfg env created
    match s.outcome with
    | .normal =>
      let r := restDry cfg
      ⟨p.1 ++ s.events ++ r.1, s.created, r.2⟩
    | o => ⟨p.1 ++ s.events, s.created, o⟩
  | o => ⟨p.1, created, o⟩

/-- A filesystem side effect: a directory creation (the only filesystem
effect a dry run can produce). -/
def isFsEffect (e : Event) : Bool :=
  match e with
  | .dirCreate _ => true
  | _ => false

/-- A process side effect: an external process actually started. -/
def isProcEffect (e : Event) : Bool :=
  match e with
  | .procRun _ => true
  | .procCapture _ => true
  | _ => false

/-- config_to_dict in state-passing form: asdict copies the config into a
fresh dictionary and the two pops act on that copy, so the call returns
the stripped dictionary together with the untouched config object. -/
def config_to_dict_call (cfg : GentooInstallConfig) :
    (List (String × JValue)) × GentooInstallConfig :=
  let data := asdict cfg
  let data1 := dictPop "root_password" data
  let data2 := dictPop "user_password" data1
  (data2, cfg)

/-- save_config_file in state-passing form: it writes the stripped
dictionary of config_to_dict to the given path and returns the config
object it was given. -/
def save_config_file_call (cfg : GentooInstallConfig) (path : String) :
    (List (String × List (String × JValue))) × GentooInstallConfig :=
  let data := config_to_dict cfg
  ([(path, data)], cfg)

end GentooInstaller

namespace GentooInstaller

/-- Claim C1: is_complete returns true iff all required scalar fields are
set, use_uefi is explicitly set, and the disk-identity requirement holds:
root_partition in manual mode (target_disk irrelevant), target_disk in
auto mode (root_partition irrelevant). -/
theorem C1_is_complete_characterization (cfg : GentooInstallConfig) :
    (cfg.disk_mode = "manual" →
      (is_complete cfg = true ↔
        truthyOpt cfg.root_partition = true ∧ specRequiredScalars cfg)) ∧
    (cfg.disk_mode = "auto" →
      (is_complete cfg = true ↔
        truthyOpt cfg.target_disk = true ∧ specRequiredScalars cfg)) ∧
    (cfg.disk_mode = "manual" →
      ∀ t, is_complete { cfg with target_disk := t } = is_complete cfg) ∧
    (cfg.disk_mode = "auto" →
      ∀ r, is_complete { cfg with root_partition := r } = is_complete cfg) := by
  refine ⟨?_, ?_, ?_, ?_⟩
  · intro h
    simp only [is_complete, specRequiredScalars, h, if_pos rfl, Bool.and_eq_true,
      bne_iff_ne, ne_eq]
    tauto
  · intro h
    have hne : cfg.disk_mode ≠ "manual" := by rw [h]; decide
    simp only [is_complete, specRequiredScalars, if_neg hne, Bool.and_eq_true,
      bne_iff_ne, ne_eq]
    tauto
  · intro h t
    simp [is_complete, h]
  · intro h r
    have hne : cfg.disk_mode ≠ "manual" := by rw [h]; decide
    simp only [is_complete, if_neg hne]

/-- Witness for C1 at a concrete complete manual-mode configuration. -/
theorem C1_is_complete_characterization_witness :
    is_complete
      { disk_mode := "manual", root_partition := some "/dev/sda2",
        use_uefi := some true, desktop_profile := some "none",
        hostname := some "box", username := some "u",
        root_password := some "r", user_password := some "p" } = true := by
  have h := (C1_is_complete_characterization
      { disk_mode := "manual", root_partition := some "/dev/sda2",
        use_uefi := some true, desktop_profile := some "none",
        hostname := some "box", username := some "u",
        root_password := some "r", user_password := some "p" }).1 rfl
  exact h.mpr ⟨by decide, by refine ⟨?_, ?_, ?_, ?_, ?_, ?_, ?_, ?_, ?_, ?_, ?_⟩ <;> decide⟩

/-- Helper: the audit command list distributes over trace concatenation. -/
theorem cmdArgvs_append (xs ys : List Event) :
    cmdArgvs (xs ++ ys) = cmdArgvs xs ++ cmdArgvs ys := by
  simp [cmdArgvs, List.filterMap_append]

/-- Helper: a runCmd call contributes exactly its argv to the command list,
in dry-run and in live mode. -/
theorem cmdArgvs_runCmd (a : List String) (dry : Bool) :
    cmdArgvs (runCmd a dry) = [a] := by
  cases dry <;> rfl

/-- Helper: the commands issued while formatting marked partitions are all
mkfs invocations; none of them is a parted command. -/
theorem mkfsEvents_heads (fps : List (String × String)) (dry : Bool) :
    ∀ a ∈ cmdArgvs (mkfsEvents fps dry),
      a.head? = some "mkfs.ext4" ∨ a.head? = some "mkfs.vfat" := by
  induction fps with
  | nil => simp [mkfsEvents, cmdArgvs]
  | cons pf rest ih =>
    intro a ha
    have hstep : mkfsEvents (pf :: rest) dry =
        (if pf.2 = "ext4" then runCmd ["mkfs.ext4", pf.1] dry
         else if pf.2 = "vfat" then runCmd ["mkfs.vfat", "-F32", pf.1] dry
         else []) ++ mkfsEvents rest dry := by
      simp [mkfsEvents]
    rw [hstep, cmdArgvs_append] at ha
    rcases List.mem_append.mp ha with hl | hr
    · by_cases h4 : pf.2 = "ext4"
      · rw [if_pos h4, cmdArgvs_runCmd] at hl
        simp only [List.mem_singleton] at hl
        subst hl
        exact Or.inl rfl
      · by_cases hv : pf.2 = "vfat"
        · rw [if_neg h4, if_pos hv, cmdArgvs_runCmd] at hl
          simp only [List.mem_singleton] at hl
          subst hl
          exact Or.inr rfl
        · rw [if_neg h4, if_neg hv] at hl
          simp [cmdArgvs] at hl
    · exact ih a hr

/-- Claim C3 counterexample: for a config with disk_mode auto and
target_disk unset, prepare_disks does not terminate the process with a
non-zero exit status; with the erase confirmation declined it returns
normally, issuing no command, so the pipeline proceeds. -/
theorem C3_auto_missing_disk_counterexample :
    (prepare_disks { disk_mode := "auto", target_disk := none } {} true).2 =
      Outcome.normal ∧
    (prepare_disks { disk_mode := "auto", target_disk := none } {} true).2 ≠
      Outcome.exited ∧
    (prepare_disks { disk_mode := "auto", target_disk := none } {} true).1 = [] := by
  refine ⟨rfl, ?_, rfl⟩
  intro h
  simp [prepare_disks] at h

/-- Claim C3 amended: in manual mode a missing (falsy) root partition is
fatal: prepare_disks exits with a non-zero status before issuing any
command.  In auto mode there is no target-disk prerequisite check: when
the erase confirmation is declined, prepare_disks returns normally with
no command issued and the pipeline proceeds. -/
theorem C3_missing_prerequisites_amended :
    (∀ (cfg : GentooInstallConfig) (env : Env) (dry : Bool),
      cfg.disk_mode = "manual" → truthyOpt cfg.root_partition = false →
      prepare_disks cfg env dry = ([], Outcome.exited)) ∧
    (∀ (cfg : GentooInstallConfig) (env : Env) (dry : Bool),
      cfg.disk_mode ≠ "manual" → env.confirmWipe = false →
      prepare_disks cfg env dry = ([], Outcome.normal)) := by
  constructor
  · intro cfg env dry h hr
    simp [prepare_disks, h, hr]
  · intro cfg env dry h hw
    simp [prepare_disks, h, hw]

/-- Witness for the amended C3 at concrete configurations. -/
theorem C3_missing_prerequisites_amended_witness :
    prepare_disks { disk_mode := "manual", root_partition := none } {} true =
      ([], Outcome.exited) ∧
    prepare_disks { disk_mode := "auto" } { confirmWipe := false } true =
      ([], Outcome.normal) :=
  ⟨C3_missing_prerequisites_amended.1 _ _ _ rfl rfl,
   C3_missing_prerequisites_amended.2 _ _ _ (by decide) rfl⟩

/-- Claim C5: in auto mode with the erase confirmation accepted, the UEFI
plan is a GPT label, exactly two mkpart commands (a FAT32 boot partition
over the first 513 MiB and an ext4 root partition over the remainder),
formatting of both, and mounts of root at the canonical install root and
boot beneath it; the BIOS plan is an MBR label, exactly one ext4
partition over the whole disk, its format, and a mount of the root only. -/
theorem C5_auto_mode_plan (cfg : GentooInstallConfig) (env : Env) (dry : Bool)
    (d : String) (hm : cfg.disk_mode = "auto") (hd : cfg.target_disk = some d)
    (hw : env.confirmWipe = true) :
    (cfg.use_uefi = some true →
      cmdArgvs (prepare_disks cfg env dry).1 =
        [["parted", d, "--script", "mklabel", "gpt"],
         ["parted", d, "--script", "mkpart", "ESP", "fat32", "1MiB", "513MiB"],
         ["parted", d, "--script", "set", "1", "boot", "on"],
         ["parted", d, "--script", "mkpart", "primary", "ext4", "513MiB", "100%"],
         ["mkfs.vfat", "-F32", part_name d 1],
         ["mkfs.ext4", part_name d 2],
         ["mkdir", "-p", GENTOO_ROOT],
         ["mount", part_name d 2, GENTOO_ROOT],
         ["mkdir", "-p", GENTOO_ROOT ++ "/boot"],
         ["mount", part_name d 1, GENTOO_ROOT ++ "/boot"]] ∧
      (cmdArgvs (prepare_disks cfg env dry).1).countP
        (fun a => isMkpartCmd a) = 2) ∧
    (cfg.use_uefi ≠ some true →
      cmdArgvs (prepare_disks cfg env dry).1 =
        [["parted", d, "--script", "mklabel", "msdos"],
         ["parted", d, "--script", "mkpart", "primary", "ext4", "1MiB", "100%"],
         ["mkfs.ext4", part_name d 1],
         ["mkdir", "-p", GENTOO_ROOT],
         ["mount", part_name d 1, GENTOO_ROOT]] ∧
      (cmdArgvs (prepare_disks cfg env dry).1).countP
        (fun a => isMkpartCmd a) = 1) := by
  have hne : cfg.disk_mode ≠ "manual" := by rw [hm]; decide
  constructor
  · intro hu
    have hp : (prepare_disks cfg env dry).1 = uefiPlanEvents d dry := by
      simp [prepare_disks, hne, hw, hd, hu]
    have hl : cmdArgvs (prepare_disks cfg env dry).1 =
        [["parted", d, "--script", "mklabel", "gpt"],
         ["parted", d, "--script", "mkpart", "ESP", "fat32", "1MiB", "513MiB"],
         ["parted", d, "--script", "set", "1", "boot", "on"],
         ["parted", d, "--script", "mkpart", "primary", "ext4", "513MiB", "100%"],
         ["mkfs.vfat", "-F32", part_name d 1],
         ["mkfs.ext4", part_name d 2],
         ["mkdir", "-p", GENTOO_ROOT],
         ["mount", part_name d 2, GENTOO_ROOT],
         ["mkdir", "-p", GENTOO_ROOT ++ "/boot"],
         ["mount", part_name d 1, GENTOO_ROOT ++ "/boot"]] := by
      rw [hp]
      cases dry <;> rfl
    refine ⟨hl, ?_⟩
    rw [hl]
    rfl
  · intro hu
    have hp : (prepare_disks cfg env dry).1 = biosPlanEvents d dry := by
      simp [prepare_disks, hne, hw, hd, if_neg hu]
    have hl : cmdArgvs (prepare_disks cfg env dry).1 =
        [["parted", d, "--script", "mklabel", "msdos"],
         ["parted", d, "--script", "mkpart", "primary", "ext4", "1MiB", "100%"],
         ["mkfs.ext4", part_name d 1],
         ["mkdir", "-p", GENTOO_ROOT],
         ["mount", part_name d 1, GENTOO_ROOT]] := by
      rw [hp]
      cases dry <;> rfl
    refine ⟨hl, ?_⟩
    rw [hl]
    rfl

/-- Witness for C5 at a concrete UEFI configuration on /dev/sda. -/
theorem C5_auto_mode_plan_witness :
    cmdArgvs (prepare_disks
      { disk_mode := "auto", target_disk := some "/dev/sda",
        use_uefi := some true } { confirmWipe := true } true).1 =
      [["parted", "/dev/sda", "--script", "mklabel", "gpt"],
       ["parted", "/dev/sda", "--script", "mkpart", "ESP", "fat32", "1MiB", "513MiB"],
       ["parted", "/dev/sda", "--script", "set", "1", "boot", "on"],
       ["parted", "/dev/sda", "--script", "mkpart", "primary", "ext4", "513MiB", "100%"],
       ["mkfs.vfat", "-F32", "/dev/sda1"],
       ["mkfs.ext4", "/dev/sda2"],
       ["mkdir", "-p", "/mnt/gentoo"],
       ["mount", "/dev/sda2", "/mnt/gentoo"],
       ["mkdir", "-p", "/mnt/gentoo/boot"],
       ["mount", "/dev/sda1", "/mnt/gentoo/boot"]] := by
  have h := (C5_auto_mode_plan
    { disk_mode := "auto", target_disk := some "/dev/sda", use_uefi := some true }
    { confirmWipe := true } true "/dev/sda" rfl rfl rfl).1 rfl
  exact h.1

/-- Claim C8: in manual mode with a root partition set and partitions
marked for formatting, declining the formatting confirmation issues no
mkfs command, yet the plan still mounts the root partition at the
canonical install root and, when a boot partition is set, mounts it at
the boot directory beneath it; no manual-mode run ever issues a parted
command, so the partition table is never modified. -/
theorem C8_manual_decline_formatting :
    (∀ (cfg : GentooInstallConfig) (env : Env) (dry : Bool) (r : String),
      cfg.disk_mode = "manual" → cfg.root_partition = some r → r ≠ "" →
      cfg.format_partitions ≠ [] → env.confirmFormat = false →
      cmdArgvs (prepare_disks cfg env dry).1 =
        [["mkdir", "-p", GENTOO_ROOT], ["mount", r, GENTOO_ROOT]] ++
        (if truthyOpt cfg.boot_partition then
          [["mkdir", "-p", GENTOO_ROOT ++ "/boot"],
           ["mount", cfg.boot_partition.getD "", GENTOO_ROOT ++ "/boot"]]
         else []) ∧
      ∀ a ∈ cmdArgvs (prepare_disks cfg env dry).1,
        a.head? ≠ some "mkfs.ext4" ∧ a.head? ≠ some "mkfs.vfat") ∧
    (∀ (cfg : GentooInstallConfig) (env : Env) (dry : Bool),
      cfg.disk_mode = "manual" →
      ∀ a ∈ cmdArgvs (prepare_disks cfg env dry).1, a.head? ≠ some "parted") := by
  constructor
  · intro cfg env dry r hm hr hrne hfp hcf
    have ht : truthyOpt cfg.root_partition = true := by
      rw [hr]
      simp [truthyOpt, hrne]
    have htr : truthyOpt (some r) = true := by
      simp [truthyOpt, hrne]
    have hp : (prepare_disks cfg env dry).1 =
        runCmd ["mkdir", "-p", GENTOO_ROOT] dry ++
        runCmd ["mount", r, GENTOO_ROOT] dry ++
        (if truthyOpt cfg.boot_partition then
          runCmd ["mkdir", "-p", GENTOO_ROOT ++ "/boot"] dry ++
          runCmd ["mount", cfg.boot_partition.getD "", GENTOO_ROOT ++ "/boot"] dry
         else []) := by
      have hie : cfg.format_partitions.isEmpty = false := by
        cases hfc : cfg.format_partitions with
        | nil => exact absurd hfc hfp
        | cons x xs => rfl
      simp [prepare_disks, hm, ht, htr, hie, hcf, hr]
    have hl : cmdArgvs (prepare_disks cfg env dry).1 =
        [["mkdir", "-p", GENTOO_ROOT], ["mount", r, GENTOO_ROOT]] ++
        (if truthyOpt cfg.boot_partition then
          [["mkdir", "-p", GENTOO_ROOT ++ "/boot"],
           ["mount", cfg.boot_partition.getD "", GENTOO_ROOT ++ "/boot"]]
         else []) := by
      rw [hp]
      by_cases hb : truthyOpt cfg.boot_partition
      · rw [if_pos hb, if_pos hb]
        simp [cmdArgvs_append, cmdArgvs_runCmd]
      · rw [if_neg hb, if_neg hb]
        simp [cmdArgvs_append, cmdArgvs_runCmd]
    refine ⟨hl, ?_⟩
    intro a ha
    rw [hl] at ha
    by_cases hb : truthyOpt cfg.boot_partition
    · rw [if_pos hb] at ha
      simp only [List.mem_append, List.mem_cons, List.not_mem_nil, or_false] at ha
      rcases ha with (rfl | rfl) | (rfl | rfl) <;> exact ⟨by simp, by simp⟩
    · rw [if_neg hb] at ha
      simp only [List.append_nil, List.mem_cons, List.not_mem_nil, or_false] at ha
      rcases ha with rfl | rfl <;> exact ⟨by simp, by simp⟩
  · intro cfg env dry hm a ha
    by_cases ht : truthyOpt cfg.root_partition = false
    · have : (prepare_disks cfg env dry).1 = [] := by
        simp [prepare_disks, hm, ht]
      rw [this] at ha
      simp [cmdArgvs] at ha
    · have hfmt :
          (prepare_disks cfg env dry).1 =
          (if cfg.format_partitions.isEmpty then []
           else if env.confirmFormat then mkfsEvents cfg.format_partitions dry
           else []) ++
          (runCmd ["mkdir", "-p", GENTOO_ROOT] dry ++
           runCmd ["mount", cfg.root_partition.getD "", GENTOO_ROOT] dry ++
           (if truthyOpt cfg.boot_partition then
             runCmd ["mkdir", "-p", GENTOO_ROOT ++ "/boot"] dry ++
             runCmd ["mount", cfg.boot_partition.getD "", GENTOO_ROOT ++ "/boot"] dry
            else [])) := by
        simp [prepare_disks, hm, ht]
      rw [hfmt, cmdArgvs_append] at ha
      rcases List.mem_append.mp ha with hl | hrm
      · by_cases hie : cfg.format_partitions.isEmpty
        · rw [if_pos hie] at hl
          simp [cmdArgvs] at hl
        · rw [if_neg hie] at hl
          by_cases hcf : env.confirmFormat
          · rw [if_pos hcf] at hl
            rcases mkfsEvents_heads cfg.format_partitions dry a hl with h | h <;>
              simp [h]
          · rw [if_neg hcf] at hl
            simp [cmdArgvs] at hl
      · rw [cmdArgvs_append, cmdArgvs_append, cmdArgvs_runCmd, cmdArgvs_runCmd] at hrm
        by_cases hb : truthyOpt cfg.boot_partition
        · rw [if_pos hb] at hrm
          rw [cmdArgvs_append, cmdArgvs_runCmd, cmdArgvs_runCmd] at hrm
          simp only [List.mem_append, List.mem_singleton] at hrm
          rcases hrm with (rfl | rfl) | (rfl | rfl) <;> simp
        · rw [if_neg hb] at hrm
          simp only [cmdArgvs, List.filterMap_nil, List.append_nil,
            List.mem_append, List.mem_singleton] at hrm
          rcases hrm with rfl | rfl <;> simp

/-- Witness for C8 at a concrete manual-mode configuration that marks a
partition for formatting and declines the confirmation. -/
theorem C8_manual_decline_formatting_witness :
    cmdArgvs (prepare_disks
      { disk_mode := "manual", root_partition := some "/dev/sdb3",
        format_partitions := [("/dev/sdb3", "ext4")] } {} true).1 =
      [["mkdir", "-p", "/mnt/gentoo"], ["mount", "/dev/sdb3", "/mnt/gentoo"]] := by
  have h := (C8_manual_decline_formatting.1
    { disk_mode := "manual", root_partition := some "/dev/sdb3",
      format_partitions := [("/dev/sdb3", "ext4")] } {} true "/dev/sdb3"
    rfl rfl (by decide) (by decide) rfl).1
  exact h

/-- Claim C6: for every username and non-empty password, in both modes
the audit line is a constant independent of the password, equal to the
fixed redacted placeholder line, so it never carries the literal password
value; the argument vector of every started process is likewise
independent of the password, and in live mode the password reaches
chpasswd only through the standard-input payload of the single started
process, whose argv is the constant chroot chpasswd invocation. -/
theorem C6_password_redaction (u p1 p2 : String) (dry : Bool)
    (h1 : p1 ≠ "") (h2 : p2 ≠ "") :
    (set_password u p1 dry).auditLines = (set_password u p2 dry).auditLines ∧
    (set_password u p1 dry).auditLines =
      ["[CMD]" ++ (if dry then " (dry-run)" else "") ++
        ": chpasswd (stdin redacted)"] ∧
    (set_password u p1 dry).procs.map Prod.fst =
      (set_password u p2 dry).procs.map Prod.fst ∧
    (set_password u p1 false).procs =
      [(["chroot", GENTOO_ROOT, "chpasswd"], some (u ++ ":" ++ p1 ++ "\n"))] := by
  cases dry <;>
    exact ⟨by simp [set_password, h1, h2], by simp [set_password, h1],
      by simp [set_password, h1, h2], by simp [set_password, h1]⟩

/-- Witness for C6 at concrete usernames and passwords. -/
theorem C6_password_redaction_witness :
    (set_password "alice" "hunter2" true).auditLines =
      (set_password "alice" "other9" true).auditLines ∧
    (set_password "alice" "hunter2" true).auditLines =
      ["[CMD] (dry-run): chpasswd (stdin redacted)"] ∧
    (set_password "alice" "hunter2" true).procs.map Prod.fst =
      (set_password "alice" "other9" true).procs.map Prod.fst ∧
    (set_password "alice" "hunter2" false).procs =
      [(["chroot", "/mnt/gentoo", "chpasswd"], some "alice:hunter2\n")] := by
  have h := C6_password_redaction "alice" "hunter2" "other9" true
    (by decide) (by decide)
  exact ⟨h.1, h.2.1, h.2.2.1, h.2.2.2⟩

/-- Claim C10: _set_password is a no-op for an absent secret: an empty
(falsy) password returns immediately without any audit line and without
starting any process, in dry-run and in live mode alike. -/
theorem C10_empty_password_noop (u : String) (dry : Bool) :
    set_password u "" dry = ⟨[], []⟩ := by
  simp [set_password]

/-- Claim C4: on the specified introspection rows with the configured
swap device whose UUID lookup returns 9999, generate_fstab produces
exactly the root entry with mountpoint / and pass number 1, the boot
entry with mountpoint /boot and pass number 2, and the swap entry with
mountpoint none and pass number 0; and in general a row whose target
does not start with the mounted root, or whose filesystem type or UUID
is empty, contributes no entry. -/
theorem C4_fstab_derivation :
    fstabLines "/mnt/gentoo"
      [⟨"/dev/sda2", "/mnt/gentoo", "ext4", "ABCD"⟩,
       ⟨"/dev/sda1", "/mnt/gentoo/boot", "vfat", "EF01"⟩]
      (some "/dev/sda3") (some "9999") =
      ["UUID=ABCD / ext4 defaults 0 1",
       "UUID=EF01 /boot vfat defaults 0 2",
       "UUID=9999 none swap sw 0 0"] ∧
    ∀ (root : String) (rows : List FindmntRow) (swap : Option String)
      (bu : Option String),
      fstabLines root rows swap bu =
        fstabLines root
          (rows.filter (fun r =>
            strStartsWith r.target root && r.fstype != "" && r.uuid != ""))
          swap bu := by
  constructor
  · rfl
  · intro root rows swap bu
    unfold fstabLines
    congr 1
    induction rows with
    | nil => rfl
    | cons r rest ih =>
      by_cases hk :
          (strStartsWith r.target root && r.fstype != "" && r.uuid != "") = true
      · simp [List.filter_cons, hk, List.filterMap_cons, ih]
      · have hline : fstabMountLine root r = none := by
          by_cases hu : r.uuid = ""
          · simp [fstabMountLine, hu]
          · by_cases hf : r.fstype = ""
            · simp [fstabMountLine, hf]
            · have hs : strStartsWith r.target root = false := by
                cases h3 : strStartsWith r.target root
                · rfl
                · exact absurd (by simp [h3, hu, hf]) hk
              simp [fstabMountLine, hu, hf, hs]
        rw [Bool.not_eq_true] at hk
        simp [List.filter_cons, hk, List.filterMap_cons, hline, ih]

/-- Helper: decoding the encoding of an optional string field is the
identity. -/
theorem decOptStr_enc (o dflt : Option String) :
    decOptStr (some (jOptStr o)) dflt = o := by
  cases o <;> rfl

/-- Helper: decoding the encoding of an optional integer field is the
identity. -/
theorem decOptInt_enc (o dflt : Option Int) :
    decOptInt (some (jOptInt o)) dflt = o := by
  cases o <;> rfl

/-- Helper: decoding the encoding of an optional boolean field is the
identity. -/
theorem decOptBool_enc (o dflt : Option Bool) :
    decOptBool (some (jOptBool o)) dflt = o := by
  cases o <;> rfl

/-- Helper: decoding the non-secret encoding recovers every field of the
config except the two passwords, which come back as None. -/
theorem from_dict_to_dict (cfg : GentooInstallConfig) :
    config_from_dict (config_to_dict cfg) =
      { cfg with root_password := none, user_password := none } := by
  cases cfg with
  | mk sv sc la s3 mj fp ek td dm rp bp sp fps rfs uu dp hn un rpw upw uis bl ke nm =>
    show GentooInstallConfig.mk sv sc la
        (decOptStr (some (jOptStr s3)) none) (decOptInt (some (jOptInt mj)) none)
        fp ek (decOptStr (some (jOptStr td)) none) dm
        (decOptStr (some (jOptStr rp)) none) (decOptStr (some (jOptStr bp)) none)
        (decOptStr (some (jOptStr sp)) none) fps rfs
        (decOptBool (some (jOptBool uu)) none) (decOptStr (some (jOptStr dp)) none)
        (decOptStr (some (jOptStr hn)) none) (decOptStr (some (jOptStr un)) none)
        none none uis bl ke nm =
      GentooInstallConfig.mk sv sc la s3 mj fp ek td dm rp bp sp fps rfs uu dp hn un
        none none uis bl ke nm
    simp only [decOptStr_enc, decOptInt_enc, decOptBool_enc]

/-- Claim C7: decoding the non-secret encoding and re-encoding is the
identity on encodings; the decoded config agrees with the original on
every field except the two passwords, which are absent; neither password
field ever appears as a key of the encoding; decoding ignores unknown
keys and succeeds on a dictionary with every optional field absent,
yielding the default config. -/
theorem C7_serialization_roundtrip :
    (∀ cfg : GentooInstallConfig,
      config_to_dict (config_from_dict (config_to_dict cfg)) =
        config_to_dict cfg) ∧
    (∀ cfg : GentooInstallConfig,
      config_from_dict (config_to_dict cfg) =
        { cfg with root_password := none, user_password := none }) ∧
    (∀ cfg : GentooInstallConfig,
      ((config_to_dict cfg).map Prod.fst).contains "root_password" = false ∧
      ((config_to_dict cfg).map Prod.fst).contains "user_password" = false) ∧
    (∀ (d : List (String × JValue)) (k : String) (v : JValue),
      allowedKeys.contains k = false →
      config_from_dict ((k, v) :: d) = config_from_dict d) ∧
    config_from_dict [] = {} := by
  refine ⟨?_, from_dict_to_dict, ?_, ?_, rfl⟩
  · intro cfg
    rw [from_dict_to_dict]
    cases cfg
    rfl
  · intro cfg
    exact ⟨rfl, rfl⟩
  · intro d k v h
    have hk : ¬ k ∈ allowedKeys := by simpa using h
    unfold config_from_dict
    simp [List.filter_cons, hk]

/-- Witness for C7: decoding drops a concrete unknown key. -/
theorem C7_serialization_roundtrip_witness :
    config_from_dict [("mystery_key", JValue.jstr "x")] = config_from_dict [] :=
  C7_serialization_roundtrip.2.2.2.1 [] "mystery_key" (JValue.jstr "x") (by decide)

/-- Claim C9: serialization never mutates the configuration: the config
returned by the state-passing config_to_dict and save_config_file calls
is the very config passed in, passwords included; stripping the
passwords affects only the produced dictionary. -/
theorem C9_serialization_frame (cfg : GentooInstallConfig) (path : String) :
    (config_to_dict_call cfg).2 = cfg ∧
    (config_to_dict_call cfg).2.root_password = cfg.root_password ∧
    (config_to_dict_call cfg).2.user_password = cfg.user_password ∧
    (config_to_dict_call cfg).1 = config_to_dict cfg ∧
    (save_config_file_call cfg path).2 = cfg ∧
    (save_config_file_call cfg path).1 = [(path, config_to_dict cfg)] :=
  ⟨rfl, rfl, rfl, rfl, rfl, rfl⟩

/-- Helper: a second dry run of install_stage3, starting from the
directory overlay the first run left behind, produces the same events and
ends the same way: the only state the stage reads back is the tarball
existence check, and the directories a dry run creates cannot flip it. -/
theorem installStage3Dry_stable (cfg : GentooInstallConfig) (env : Env) :
    ((installStage3Dry cfg env (installStage3Dry cfg env []).created).events =
      (installStage3Dry cfg env []).events) ∧
    ((installStage3Dry cfg env (installStage3Dry cfg env []).created).outcome =
      (installStage3Dry cfg env []).outcome) := by
  cases hs : resolveSource cfg env with
  | none =>
    refine ⟨?_, ?_⟩ <;> simp [installStage3Dry, hs]
  | some source =>
    by_cases h1 : pathExists env (makedirs GENTOO_ROOT [])
        (if isUrl source then destPath source else source) = true
    · have hcr : (installStage3Dry cfg env []).created =
          makedirs (GENTOO_ROOT ++ "/etc") (makedirs GENTOO_ROOT []) := by
        simp [installStage3Dry, hs, h1]
      have h2 : pathExists env
          (makedirs GENTOO_ROOT
            (makedirs (GENTOO_ROOT ++ "/etc") (makedirs GENTOO_ROOT [])))
          (if isUrl source then destPath source else source) = true := by
        simp only [pathExists, makedirs, List.nil_append, List.mem_append,
          Bool.or_eq_true, decide_eq_true_eq] at h1 ⊢
        tauto
      refine ⟨?_, ?_⟩ <;> simp [installStage3Dry, hs, h1, hcr, h2]
    · have hcr : (installStage3Dry cfg env []).created =
          makedirs GENTOO_ROOT [] := by
        simp [installStage3Dry, hs, h1]
      have h2 : pathExists env
          (makedirs GENTOO_ROOT (makedirs GENTOO_ROOT []))
          (if isUrl source then destPath source else source) = false := by
        rw [Bool.not_eq_true] at h1
        simp only [pathExists, makedirs, List.nil_append, List.mem_append,
          Bool.or_eq_false_iff, decide_eq_false_iff_not] at h1 ⊢
        tauto
      rw [Bool.not_eq_true] at h1
      refine ⟨?_, ?_⟩ <;> simp [installStage3Dry, hs, h1, hcr, h2]

/-- Claim C2 amended: running the pipeline twice in dry-run mode against
an identical config and an identical external environment produces an
identical event trace and in particular an identical ordered command
list, where the second run starts from the directory overlay the first
run left behind.  The zero-side-effect half of the claim fails; see the
counterexample, which exhibits the filesystem and process side effects a
dry run does perform. -/
theorem C2_dry_run_determinism_amended (cfg : GentooInstallConfig) (env : Env) :
    ((runInstallDry cfg env (runInstallDry cfg env []).created).events =
      (runInstallDry cfg env []).events) ∧
    (cmdArgvs (runInstallDry cfg env (runInstallDry cfg env []).created).events =
      cmdArgvs (runInstallDry cfg env []).events) := by
  have key : (runInstallDry cfg env (runInstallDry cfg env []).created).events =
      (runInstallDry cfg env []).events := by
    cases hp : (prepare_disks cfg env true).2 with
    | exited => simp [runInstallDry, hp]
    | crashed => simp [runInstallDry, hp]
    | normal =>
      obtain ⟨hev, hout⟩ := installStage3Dry_stable cfg env
      have hcr : (runInstallDry cfg env []).created =
          (installStage3Dry cfg env []).created := by
        simp only [runInstallDry, hp]
        cases ho : (installStage3Dry cfg env []).outcome <;> simp
      rw [hcr]
      simp only [runInstallDry, hp]
      cases ho : (installStage3Dry cfg env []).outcome with
      | normal =>
        rw [ho] at hout
        simp [hout, hev]
      | exited =>
        rw [ho] at hout
        simp [hout, hev]
      | crashed =>
        rw [ho] at hout
        simp [hout, hev]
  exact ⟨key, by rw [key]⟩

/-- Claim C2 counterexample: a dry run is not free of side effects.  For
the default config and a fresh environment, the dry-run trace contains a
directory creation (os.makedirs of the install root in install_stage3)
and an executed external process (the mirrorselect capture of
configure_base_system), refuting the zero-filesystem and zero-process
halves of the claim. -/
theorem C2_dry_run_side_effects_counterexample :
    ((runInstallDry {} {} []).events.any (fun e => isFsEffect e)) = true ∧
    ((runInstallDry {} {} []).events.any (fun e => isProcEffect e)) = true := by
  exact ⟨rfl, rfl⟩

end GentooInstaller
